import Mathlib

/-!
Verification of the request-dispatch layer of postcard-rpc
(src/source/postcard-rpc/src/target_server/dispatch_macro.rs).

The define_dispatch! macro generates, for a declared list of endpoints, a
dispatcher with a dispatch method that matches the header key against the
request key of each endpoint, decodes the body with postcard, invokes the
handler according to its flavor (blocking, async, or spawn), and resolves
the resulting Outcome into a reply frame or an error frame, plus an error
method that performs a best-effort keyed send of a WireError.

The embedding below models the generated code shallowly: payload values of
every endpoint live in a single type V, an endpoint arm of the macro
becomes an EndpointEntry record (request key, response key, request
decoder, response encoder, handler flavor), and the generated match over
arms becomes a first-match lookup over the list of entries.  The transport
sender (which lives outside src/) is modelled from the spec by two success
flags, one for the reply send and one for the error send; a dispatch call
returns the list of handler invocations, spawned task submissions, and the
frames that were successfully placed on the wire.
-/

set_option autoImplicit false

namespace PostcardRpc

/-- Modelled from the spec: a routing key is a stable identifier carrying
raw key bytes (the Key type of postcard-rpc lives outside src/; the spec
describes UnknownKey as carrying the raw bytes of the key). -/
structure Key where
  bytes : List Nat
deriving DecidableEq, Repr

/-- The to_bytes conversion used by the unknown-key arm of dispatch. -/
def Key.to_bytes (k : Key) : List Nat := k.bytes

/-- Modelled from the spec: the decoded request header, a routing key plus
a correlation number (field seq_no in the source). -/
structure WireHeader where
  key : Key
  seq_no : Nat
deriving DecidableEq, Repr

/-- The closed set of protocol-level wire errors used by dispatch
(standard_icd::WireError in the source, named at the error sites of
dispatch_macro.rs). -/
inductive WireError where
  | DeserFailed
  | SerFailed
  | FailedToSpawn
  | UnknownKey (raw : List Nat)
deriving DecidableEq, Repr

/-- Modelled from the spec: the reserved error routing key
(standard_icd::ERROR_KEY, outside src/). -/
def ERROR_KEY : Key := ⟨[0, 0, 0, 0, 0, 0, 0, 0]⟩

/-- Modelled from the spec: the wire encoding of a WireError value, a
discriminant followed by the payload of the variant.  It is total: the
source discards the result of serializing an error anyway. -/
def encodeWireError : WireError → List Nat
  | .DeserFailed => [0]
  | .SerFailed => [1]
  | .FailedToSpawn => [2]
  | .UnknownKey raw => 3 :: raw

/-- standard_icd::Outcome: the result of invoking a handler, either a
ready reply value or a spawn-submission success or failure signal. -/
inductive Outcome (T : Type) where
  | Reply (t : T)
  | SpawnSuccess
  | SpawnFailure
deriving DecidableEq, Repr

/-- An outbound frame: correlation number, routing key, payload bytes. -/
structure Frame where
  seq_no : Nat
  key : Key
  payload : List Nat
deriving DecidableEq, Repr

/-- Modelled from the spec: the transport-facing Sender handle (outside
src/).  Its reply and reply_keyed operations may fail; the two flags give
the transport-level outcome of the reply send and of the error send. -/
structure Sender where
  replyTxOk : Bool
  errTxOk : Bool
deriving DecidableEq, Repr

/-- Modelled from the spec: Sender.reply serializes the response value
with the response codec of the endpoint and sends it under the response
key; it fails when serialization fails or when the transport refuses the
send, and on success the frame carries the correlation number, the
response key, and the encoded value. -/
def Sender.reply {V : Type} (s : Sender) (seq : Nat) (respKey : Key)
    (enc : V → Option (List Nat)) (v : V) : Except Unit Frame :=
  match enc v with
  | none => .error ()
  | some p => if s.replyTxOk then .ok ⟨seq, respKey, p⟩ else .error ()

/-- Modelled from the spec: Sender.reply_keyed sends an already-encoded
payload under an arbitrary key; it fails when the transport refuses the
send. -/
def Sender.reply_keyed (s : Sender) (seq : Nat) (k : Key)
    (payload : List Nat) : Except Unit Frame :=
  if s.errTxOk then .ok ⟨seq, k, payload⟩ else .error ()

/-- The execution flavor of an endpoint arm of define_dispatch!.  A
blocking or async handler is a function from header and request to
response (the await of the async call is inlined by the shallow
embedding).  For a spawn arm the submission of the task to the embassy
spawner is modelled by its outcome flag; the task body runs outside the
dispatch path and is not part of this model. -/
inductive Flavor (V : Type) where
  | blocking (handler : WireHeader → V → V)
  | async (handler : WireHeader → V → V)
  | spawn (spawnOk : Bool)

/-- One endpoint arm of define_dispatch!: the request key matched by the
generated match, the response key used for the reply frame, the postcard
decoder of the request type, the serializer of the response type (used
inside Sender.reply), and the handler flavor. -/
structure EndpointEntry (V : Type) where
  reqKey : Key
  respKey : Key
  decode : List Nat → Option V
  encodeResp : V → Option (List Nat)
  flavor : Flavor V

/-- The declared endpoint list of one define_dispatch! invocation. -/
abbrev DispatchTable (V : Type) := List (EndpointEntry V)

/-- The generated match over endpoint arms: the first entry whose request
key equals the header key. -/
def lookup {V : Type} (table : DispatchTable V) (k : Key) :
    Option (EndpointEntry V) :=
  table.find? (fun e => decide (e.reqKey = k))

/-- The build-time uniqueness check: deny(unreachable_patterns) on the
generated match rejects, at compile time, any table in which two arms
share a request key.  A table is accepted exactly when its request keys
are pairwise distinct. -/
def dupFree {V : Type} (table : DispatchTable V) : Prop :=
  (table.map (fun e => e.reqKey)).Nodup

instance {V : Type} (table : DispatchTable V) : Decidable (dupFree table) :=
  List.nodupDecidable _

/-- The @arm expansion of define_dispatch!: a blocking handler is called
inline, an async handler is awaited inline, and both wrap the response in
Outcome::Reply; a spawn arm submits the task and yields SpawnSuccess or
SpawnFailure according to the spawner. -/
def invokeArm {V : Type} : Flavor V → WireHeader → V → Outcome V
  | .blocking h, hdr, req => .Reply (h hdr req)
  | .async h, hdr, req => .Reply (h hdr req)
  | .spawn ok, _, _ => if ok then .SpawnSuccess else .SpawnFailure

/-- The keys whose handler body runs inline on the dispatch path for a
given flavor: blocking and async arms run the handler, a spawn arm does
not. -/
def inlineKeys {V : Type} : Flavor V → Key → List Key
  | .blocking _, k => [k]
  | .async _, k => [k]
  | .spawn _, _ => []

/-- The observable effects of one dispatch call: the keys of handlers
invoked inline, the keys of tasks successfully submitted to the spawner,
and the frames successfully placed on the wire. -/
structure DispatchResult where
  invoked : List Key
  spawned : List Key
  frames : List Frame
deriving DecidableEq, Repr

/-- The generated error method: a best-effort reply_keyed send of the
encoded error under ERROR_KEY, tagged with the given correlation number;
the result of the send is discarded (let _ = ... in the source), so a
failed send produces no frame and no further action. -/
def error (s : Sender) (seq_no : Nat) (err : WireError) : List Frame :=
  match s.reply_keyed seq_no ERROR_KEY (encodeWireError err) with
  | .ok f => [f]
  | .error _ => []

/-- The generated dispatch method: match the header key against the
request keys of the table; on a miss send an UnknownKey error carrying
the raw key bytes; on a hit decode the body (a failure sends DeserFailed
and returns); invoke the handler per its flavor and resolve the Outcome:
Reply serializes and sends the reply frame, any failure of that send
producing a SerFailed error; SpawnSuccess takes no action; SpawnFailure
sends FailedToSpawn. -/
def dispatch {V : Type} (table : DispatchTable V) (hdr : WireHeader)
    (body : List Nat) (s : Sender) : DispatchResult :=
  match lookup table hdr.key with
  | none => ⟨[], [], error s hdr.seq_no (.UnknownKey hdr.key.to_bytes)⟩
  | some e =>
    match e.decode body with
    | none => ⟨[], [], error s hdr.seq_no .DeserFailed⟩
    | some req =>
      match invokeArm e.flavor hdr req with
      | .Reply t =>
        match s.reply hdr.seq_no e.respKey e.encodeResp t with
        | .ok f => ⟨inlineKeys e.flavor e.reqKey, [], [f]⟩
        | .error _ =>
          ⟨inlineKeys e.flavor e.reqKey, [], error s hdr.seq_no .SerFailed⟩
      | .SpawnSuccess => ⟨[], [e.reqKey], []⟩
      | .SpawnFailure => ⟨[], [], error s hdr.seq_no .FailedToSpawn⟩

/-! Helper lemmas shared by the claim theorems. -/

/-- On a duplicate-free table, lookup at the request key of a registered
entry finds exactly that entry. -/
theorem lookup_unique {V : Type} {table : DispatchTable V}
    {e : EndpointEntry V} (hnd : dupFree table) (hmem : e ∈ table) :
    lookup table e.reqKey = some e := by
  induction table with
  | nil => cases hmem
  | cons a l ih =>
    rw [dupFree, List.map_cons, List.nodup_cons] at hnd
    rcases List.mem_cons.mp hmem with h | h
    · subst h
      simp [lookup, List.find?_cons]
    · have hne : ¬(a.reqKey = e.reqKey) := fun hk =>
        hnd.1 (hk ▸ List.mem_map_of_mem (fun x => x.reqKey) h)
      simpa [lookup, List.find?_cons, hne] using ih hnd.2 h

/-- A flavor whose arm yields a Reply outcome is an inline flavor, so its
handler key is recorded as invoked. -/
theorem inlineKeys_of_reply {V : Type} {f : Flavor V} {hdr : WireHeader}
    {req t : V} (h : invokeArm f hdr req = .Reply t) (k : Key) :
    inlineKeys f k = [k] := by
  cases f with
  | blocking h2 => rfl
  | async h2 => rfl
  | spawn ok => cases ok <;> simp [invokeArm] at h

/-- The error method sends at most one frame. -/
theorem error_length_le_one (s : Sender) (n : Nat) (err : WireError) :
    (error s n err).length ≤ 1 := by
  unfold error Sender.reply_keyed
  split <;> simp_all

/-- Counting entries with a given request key equals counting that key
among the mapped request keys. -/
theorem count_map_reqKey {V : Type} (table : DispatchTable V) (k : Key) :
    List.count k (table.map fun e => e.reqKey) =
      table.countP (fun e => decide (e.reqKey = k)) := by
  induction table with
  | nil => rfl
  | cons a l ih =>
    simp only [List.map_cons, List.count_cons, List.countP_cons, ih,
      beq_iff_eq, decide_eq_true_eq]

/-- C6: the build-time deny(unreachable_patterns) check accepts a
dispatch table exactly when every routing key selects at most one
endpoint entry, so a key collision is rejected before any frame is
processed and never reaches dispatch time. -/
theorem dupFree_iff_key_selects_at_most_one {V : Type}
    (table : DispatchTable V) :
    dupFree table ↔
      ∀ k : Key, table.countP (fun e => decide (e.reqKey = k)) ≤ 1 := by
  rw [dupFree, List.nodup_iff_count_le_one]
  constructor
  · intro h k
    simpa [count_map_reqKey] using h k
  · intro h k
    simpa [count_map_reqKey] using h k

/-- C7: the blocking and async arms of define_dispatch! always wrap the
handler result in an Outcome.Reply; a synchronous or suspending handler
invocation cannot yield SpawnSuccess or SpawnFailure. -/
theorem inline_invocation_always_reply {V : Type}
    (h : WireHeader → V → V) (hdr : WireHeader) (req : V) :
    invokeArm (Flavor.blocking h) hdr req = .Reply (h hdr req) ∧
    invokeArm (Flavor.async h) hdr req = .Reply (h hdr req) :=
  ⟨rfl, rfl⟩

/-- C8: the error method encodes the error value under the reserved
ERROR_KEY, tags the frame with the given correlation number, and performs
a best-effort send: when the transport refuses the send nothing further
happens and the method still returns normally with no frame emitted. -/
theorem error_best_effort (s : Sender) (seq : Nat) (err : WireError) :
    error s seq err =
      if s.errTxOk then [⟨seq, ERROR_KEY, encodeWireError err⟩] else [] := by
  cases h : s.errTxOk <;> simp [error, Sender.reply_keyed, h]

/-- C10: a dispatch call successfully sends at most one outbound frame,
a reply frame or an error frame but never both and never more than one,
and dispatch is a total function returning its result for every header,
body, and sender. -/
theorem dispatch_sends_at_most_one_frame {V : Type}
    (table : DispatchTable V) (hdr : WireHeader) (body : List Nat)
    (s : Sender) :
    (dispatch table hdr body s).frames.length ≤ 1 := by
  unfold dispatch
  split
  · exact error_length_le_one s hdr.seq_no _
  · split
    · exact error_length_le_one s hdr.seq_no _
    · split
      · split
        · simp
        · exact error_length_le_one s hdr.seq_no _
      · simp
      · exact error_length_le_one s hdr.seq_no _

/-- Unfolding dispatch when the key is registered, the body decodes, and
the handler invocation yields a Reply outcome: the result is determined
by the reply send. -/
theorem dispatch_of_lookup_reply {V : Type} {table : DispatchTable V}
    {e : EndpointEntry V} {hdr : WireHeader} {body : List Nat} {s : Sender}
    {req t : V}
    (hlook : lookup table hdr.key = some e)
    (hdec : e.decode body = some req)
    (hrep : invokeArm e.flavor hdr req = .Reply t) :
    dispatch table hdr body s =
      match s.reply hdr.seq_no e.respKey e.encodeResp t with
      | .ok f => ⟨inlineKeys e.flavor e.reqKey, [], [f]⟩
      | .error _ =>
        ⟨inlineKeys e.flavor e.reqKey, [], error s hdr.seq_no .SerFailed⟩ := by
  unfold dispatch
  simp only [hlook, hdec, hrep]

/-- C1: dispatching a correctly-encoded request for a registered key k on
a duplicate-free table invokes exactly the handler bound to k and no
other, and when the response of that handler serializes successfully and
the transport accepts the send, exactly one reply frame is sent, carrying
the original correlation number, the response key of the endpoint, and
the encoded response value. -/
theorem dispatch_registered_endpoint_reply {V : Type}
    {table : DispatchTable V} {e : EndpointEntry V} {hdr : WireHeader}
    {body : List Nat} {s : Sender} {req t : V}
    (hnd : dupFree table) (hmem : e ∈ table) (hkey : e.reqKey = hdr.key)
    (hdec : e.decode body = some req)
    (hrep : invokeArm e.flavor hdr req = .Reply t) :
    (dispatch table hdr body s).invoked = [hdr.key] ∧
    (dispatch table hdr body s).spawned = [] ∧
    ∀ p : List Nat, e.encodeResp t = some p → s.replyTxOk = true →
      (dispatch table hdr body s).frames = [⟨hdr.seq_no, e.respKey, p⟩] := by
  have hlook : lookup table hdr.key = some e := hkey ▸ lookup_unique hnd hmem
  have hd := dispatch_of_lookup_reply (s := s) hlook hdec hrep
  refine ⟨?_, ?_, ?_⟩
  · rw [hd]
    cases hr : s.reply hdr.seq_no e.respKey e.encodeResp t <;>
      simp [inlineKeys_of_reply hrep, hkey]
  · rw [hd]
    cases hr : s.reply hdr.seq_no e.respKey e.encodeResp t <;> simp
  · intro p henc htx
    rw [hd]
    simp [Sender.reply, henc, htx]

/-- C2: dispatching a header whose key matches no registered endpoint
sends exactly one error frame, an UnknownKey error carrying the raw bytes
of the key and tagged with the original correlation number, and invokes
no handler and spawns no task. -/
theorem dispatch_unknown_key (V : Type) (table : DispatchTable V)
    (hdr : WireHeader) (body : List Nat) (s : Sender)
    (hmiss : ∀ e ∈ table, e.reqKey ≠ hdr.key) (htx : s.errTxOk = true) :
    dispatch table hdr body s =
      ⟨[], [],
        [⟨hdr.seq_no, ERROR_KEY,
          encodeWireError (.UnknownKey hdr.key.to_bytes)⟩]⟩ := by
  have hlook : lookup table hdr.key = none := by
    unfold lookup
    apply List.find?_eq_none.mpr
    intro e he
    simpa using hmiss e he
  simp [dispatch, hlook, error, Sender.reply_keyed, htx]

/-- C3: dispatching a body that fails to decode under the request codec
of the registered endpoint sends exactly one DeserFailed error frame with
the original correlation number, and the handler is never invoked. -/
theorem dispatch_decode_failure {V : Type} {table : DispatchTable V}
    {e : EndpointEntry V} {hdr : WireHeader} {body : List Nat} {s : Sender}
    (hnd : dupFree table) (hmem : e ∈ table) (hkey : e.reqKey = hdr.key)
    (hdec : e.decode body = none) (htx : s.errTxOk = true) :
    dispatch table hdr body s =
      ⟨[], [], [⟨hdr.seq_no, ERROR_KEY, encodeWireError .DeserFailed⟩]⟩ := by
  have hlook : lookup table hdr.key = some e := hkey ▸ lookup_unique hnd hmem
  simp [dispatch, hlook, hdec, error, Sender.reply_keyed, htx]

/-- C4: when the handler yields a Reply outcome and serializing the
response value fails, exactly one SerFailed error frame with the original
correlation number is sent, and no reply frame is sent. -/
theorem dispatch_encode_failure {V : Type} {table : DispatchTable V}
    {e : EndpointEntry V} {hdr : WireHeader} {body : List Nat} {s : Sender}
    {req t : V}
    (hnd : dupFree table) (hmem : e ∈ table) (hkey : e.reqKey = hdr.key)
    (hdec : e.decode body = some req)
    (hrep : invokeArm e.flavor hdr req = .Reply t)
    (henc : e.encodeResp t = none) (htx : s.errTxOk = true) :
    (dispatch table hdr body s).frames =
      [⟨hdr.seq_no, ERROR_KEY, encodeWireError .SerFailed⟩] := by
  have hlook : lookup table hdr.key = some e := hkey ▸ lookup_unique hnd hmem
  have hd := dispatch_of_lookup_reply (s := s) hlook hdec hrep
  rw [hd]
  simp [Sender.reply, henc, error, Sender.reply_keyed, htx]

/-- C5: for a spawned endpoint, a failed submission sends exactly one
FailedToSpawn error frame with the original correlation number and
invokes no handler inline, while a successful submission records the
spawned task and takes no further action on the dispatch path, sending no
frame at all. -/
theorem dispatch_spawn_endpoint {V : Type} {table : DispatchTable V}
    {e : EndpointEntry V} {hdr : WireHeader} {body : List Nat} {s : Sender}
    {req : V}
    (hnd : dupFree table) (hmem : e ∈ table) (hkey : e.reqKey = hdr.key)
    (hdec : e.decode body = some req) :
    (e.flavor = .spawn false → s.errTxOk = true →
      dispatch table hdr body s =
        ⟨[], [],
          [⟨hdr.seq_no, ERROR_KEY, encodeWireError .FailedToSpawn⟩]⟩) ∧
    (e.flavor = .spawn true →
      dispatch table hdr body s = ⟨[], [hdr.key], []⟩) := by
  have hlook : lookup table hdr.key = some e := hkey ▸ lookup_unique hnd hmem
  constructor
  · intro hf htx
    simp [dispatch, hlook, hdec, invokeArm, hf, error, Sender.reply_keyed,
      htx]
  · intro hf
    simp [dispatch, hlook, hdec, invokeArm, hf, hkey]

/-- C9: on the reply path any failure of the reply operation, whether the
response failed to serialize or the transport refused the send of the
successfully-encoded reply, is reported as the same SerFailed error
frame: the dispatcher does not distinguish the two causes. -/
theorem dispatch_reply_failure_reported_serfailed {V : Type}
    {table : DispatchTable V} {e : EndpointEntry V} {hdr : WireHeader}
    {body : List Nat} {s : Sender} {req t : V}
    (hnd : dupFree table) (hmem : e ∈ table) (hkey : e.reqKey = hdr.key)
    (hdec : e.decode body = some req)
    (hrep : invokeArm e.flavor hdr req = .Reply t)
    (hfail : e.encodeResp t = none ∨ s.replyTxOk = false)
    (htx : s.errTxOk = true) :
    (dispatch table hdr body s).frames =
      [⟨hdr.seq_no, ERROR_KEY, encodeWireError .SerFailed⟩] := by
  have hlook : lookup table hdr.key = some e := hkey ▸ lookup_unique hnd hmem
  have hd := dispatch_of_lookup_reply (s := s) hlook hdec hrep
  have hre : s.reply hdr.seq_no e.respKey e.encodeResp t = .error () := by
    rcases hfail with h | h
    · simp [Sender.reply, h]
    · unfold Sender.reply
      cases he : e.encodeResp t <;> simp [h]
  rw [hd, hre]
  simp [error, Sender.reply_keyed, htx]

/-! Concrete sample dispatch tables used to evaluate the theorems. -/

/-- A simple request codec over Nat payloads: a body is a single byte. -/
def natDecode : List Nat → Option Nat
  | [n] => some n
  | _ => none

/-- A response codec that always succeeds. -/
def natEncode (n : Nat) : Option (List Nat) := some [n]

/-- A response codec that always fails to serialize. -/
def noEncode (_ : Nat) : Option (List Nat) := none

def kA : Key := ⟨[1, 0, 0, 0, 0, 0, 0, 0]⟩

def kAresp : Key := ⟨[1, 1, 0, 0, 0, 0, 0, 0]⟩

def kB : Key := ⟨[2, 0, 0, 0, 0, 0, 0, 0]⟩

def kBresp : Key := ⟨[2, 1, 0, 0, 0, 0, 0, 0]⟩

def kC : Key := ⟨[3, 0, 0, 0, 0, 0, 0, 0]⟩

def kCresp : Key := ⟨[3, 1, 0, 0, 0, 0, 0, 0]⟩

def kD : Key := ⟨[4, 0, 0, 0, 0, 0, 0, 0]⟩

def kDresp : Key := ⟨[4, 1, 0, 0, 0, 0, 0, 0]⟩

def kMissing : Key := ⟨[9, 9, 0, 0, 0, 0, 0, 0]⟩

/-- A blocking endpoint whose handler adds one. -/
def entryA : EndpointEntry Nat :=
  ⟨kA, kAresp, natDecode, natEncode, .blocking (fun _ n => n + 1)⟩

/-- An async endpoint whose handler doubles and whose response codec
always fails. -/
def entryB : EndpointEntry Nat :=
  ⟨kB, kBresp, natDecode, noEncode, .async (fun _ n => n * 2)⟩

/-- A spawned endpoint whose submission succeeds. -/
def entryC : EndpointEntry Nat :=
  ⟨kC, kCresp, natDecode, natEncode, .spawn true⟩

/-- A spawned endpoint whose submission fails. -/
def entryD : EndpointEntry Nat :=
  ⟨kD, kDresp, natDecode, natEncode, .spawn false⟩

def sampleTable : DispatchTable Nat := [entryA, entryB, entryC, entryD]

/-- A transport that accepts every send. -/
def sOk : Sender := ⟨true, true⟩

/-- A transport that refuses the reply send but accepts the error send. -/
def sReplyFail : Sender := ⟨false, true⟩

def hdrA : WireHeader := ⟨kA, 7⟩

def hdrB : WireHeader := ⟨kB, 11⟩

def hdrC : WireHeader := ⟨kC, 21⟩

def hdrD : WireHeader := ⟨kD, 22⟩

def hdrMiss : WireHeader := ⟨kMissing, 3⟩

/-- Witness for C1 at a concrete table: the blocking handler bound to kA
runs alone and the reply frame carries correlation 7, the response key of
the endpoint, and the encoded response value. -/
theorem dispatch_registered_endpoint_reply_witness :
    dupFree sampleTable ∧ entryA ∈ sampleTable ∧
    entryA.reqKey = hdrA.key ∧ entryA.decode [5] = some 5 ∧
    invokeArm entryA.flavor hdrA 5 = Outcome.Reply 6 ∧
    entryA.encodeResp 6 = some [6] ∧ sOk.replyTxOk = true ∧
    (dispatch sampleTable hdrA [5] sOk).invoked = [hdrA.key] ∧
    (dispatch sampleTable hdrA [5] sOk).spawned = [] ∧
    (dispatch sampleTable hdrA [5] sOk).frames = [⟨7, kAresp, [6]⟩] := by
  have h : (dispatch sampleTable hdrA [5] sOk).invoked = [hdrA.key] ∧
      (dispatch sampleTable hdrA [5] sOk).spawned = [] ∧
      ∀ p : List Nat, entryA.encodeResp 6 = some p → sOk.replyTxOk = true →
        (dispatch sampleTable hdrA [5] sOk).frames =
          [⟨hdrA.seq_no, entryA.respKey, p⟩] :=
    dispatch_registered_endpoint_reply (by decide)
      (List.mem_cons_self _ _) rfl rfl rfl
  exact ⟨by decide, List.mem_cons_self _ _, rfl, rfl, rfl, rfl, rfl,
    h.1, h.2.1, h.2.2 [6] rfl rfl⟩

/-- Witness for C2 at a concrete table: dispatching the unregistered key
kMissing produces exactly the UnknownKey error frame with correlation 3
and invokes nothing. -/
theorem dispatch_unknown_key_witness :
    (∀ e ∈ sampleTable, e.reqKey ≠ hdrMiss.key) ∧ sOk.errTxOk = true ∧
    dispatch sampleTable hdrMiss [0] sOk =
      ⟨[], [],
        [⟨3, ERROR_KEY, encodeWireError (.UnknownKey kMissing.to_bytes)⟩]⟩ := by
  refine ⟨by decide, rfl, ?_⟩
  exact dispatch_unknown_key Nat sampleTable hdrMiss [0] sOk (by decide) rfl

/-- Witness for C3 at a concrete table: an empty body fails to decode and
yields exactly the DeserFailed error frame with correlation 7. -/
theorem dispatch_decode_failure_witness :
    dupFree sampleTable ∧ entryA ∈ sampleTable ∧
    entryA.reqKey = hdrA.key ∧ entryA.decode [] = none ∧
    sOk.errTxOk = true ∧
    dispatch sampleTable hdrA [] sOk =
      ⟨[], [], [⟨7, ERROR_KEY, encodeWireError .DeserFailed⟩]⟩ := by
  refine ⟨by decide, List.mem_cons_self _ _, rfl, rfl, rfl, ?_⟩
  exact dispatch_decode_failure (by decide) (List.mem_cons_self _ _)
    rfl rfl rfl

/-- Witness for C4 at a concrete table: the async handler bound to kB
replies but its response codec fails, yielding exactly the SerFailed
error frame with correlation 11. -/
theorem dispatch_encode_failure_witness :
    dupFree sampleTable ∧ entryB ∈ sampleTable ∧
    entryB.reqKey = hdrB.key ∧ entryB.decode [4] = some 4 ∧
    invokeArm entryB.flavor hdrB 4 = Outcome.Reply 8 ∧
    entryB.encodeResp 8 = none ∧ sOk.errTxOk = true ∧
    (dispatch sampleTable hdrB [4] sOk).frames =
      [⟨11, ERROR_KEY, encodeWireError .SerFailed⟩] := by
  refine ⟨by decide, List.mem_cons_of_mem _ (List.mem_cons_self _ _),
    rfl, rfl, rfl, rfl, rfl, ?_⟩
  exact dispatch_encode_failure (by decide)
    (List.mem_cons_of_mem _ (List.mem_cons_self _ _)) rfl rfl rfl rfl rfl

/-- Witness for C5 at a concrete table: the failed submission on kD
yields exactly the FailedToSpawn error frame with correlation 22, and the
successful submission on kC records the spawned task and sends nothing. -/
theorem dispatch_spawn_endpoint_witness :
    dupFree sampleTable ∧ entryD ∈ sampleTable ∧
    entryD.reqKey = hdrD.key ∧ entryD.decode [2] = some 2 ∧
    entryD.flavor = Flavor.spawn false ∧ sOk.errTxOk = true ∧
    dispatch sampleTable hdrD [2] sOk =
      ⟨[], [], [⟨22, ERROR_KEY, encodeWireError .FailedToSpawn⟩]⟩ ∧
    entryC ∈ sampleTable ∧ entryC.flavor = Flavor.spawn true ∧
    dispatch sampleTable hdrC [2] sOk = ⟨[], [hdrC.key], []⟩ := by
  refine ⟨by decide,
    List.mem_cons_of_mem _ (List.mem_cons_of_mem _
      (List.mem_cons_of_mem _ (List.mem_cons_self _ _))),
    rfl, rfl, rfl, rfl, ?_,
    List.mem_cons_of_mem _ (List.mem_cons_of_mem _
      (List.mem_cons_self _ _)),
    rfl, ?_⟩
  · exact (dispatch_spawn_endpoint (by decide)
      (List.mem_cons_of_mem _ (List.mem_cons_of_mem _
        (List.mem_cons_of_mem _ (List.mem_cons_self _ _))))
      rfl rfl).1 rfl rfl
  · exact (dispatch_spawn_endpoint (by decide)
      (List.mem_cons_of_mem _ (List.mem_cons_of_mem _
        (List.mem_cons_self _ _)))
      rfl rfl).2 rfl

/-- Witness for C9 at a concrete table: the response of the handler bound
to kA encodes successfully but the transport refuses the reply send, and
the failure is reported as the SerFailed error frame. -/
theorem dispatch_reply_failure_reported_serfailed_witness :
    dupFree sampleTable ∧ entryA ∈ sampleTable ∧
    entryA.reqKey = hdrA.key ∧ entryA.decode [5] = some 5 ∧
    invokeArm entryA.flavor hdrA 5 = Outcome.Reply 6 ∧
    (entryA.encodeResp 6 = none ∨ sReplyFail.replyTxOk = false) ∧
    sReplyFail.errTxOk = true ∧
    (dispatch sampleTable hdrA [5] sReplyFail).frames =
      [⟨7, ERROR_KEY, encodeWireError .SerFailed⟩] := by
  refine ⟨by decide, List.mem_cons_self _ _, rfl, rfl, rfl, Or.inr rfl,
    rfl, ?_⟩
  exact dispatch_reply_failure_reported_serfailed (by decide)
    (List.mem_cons_self _ _) rfl rfl rfl (Or.inr rfl) rfl

end PostcardRpc
